import Mathlib

/-!
Shallow embedding of `validate_gpu.py` from the supermicro-validation-toolkit
repository, together with theorems checking the specification's claims.

Conventions of the embedding:
* The global `report_data["checks_performed"]` list and each validator's
  `self.failures` counter are threaded explicitly as a `VState`.
* `run_command` results are modelled as `Option String`: `some out` is the
  stripped stdout of a successful command, `none` is the failure value the
  Python function returns on `CalledProcessError` / `FileNotFoundError`.
* Python values that may be either a string or a list of strings (the
  `expected` argument that `add_check_to_report` stores verbatim) are
  modelled by `PyVal`.
* `re.search` with the four concrete patterns of the script is implemented
  as executable matchers on `List Char` (`\d` is modelled as ASCII digits,
  `\s` as Python's six whitespace characters, `.` does not match newline).
-/

namespace GpuVal

/-- A Python value stored in a check's `expected` field: either a string or
a list of strings (the VBIOS any-of list is stored as-is by
`add_check_to_report`). -/
inductive PyVal where
  | str : String → PyVal
  | strList : List String → PyVal
deriving Repr, DecidableEq

/-- One entry of `report_data["checks_performed"]`, as built by
`add_check_to_report(component, status, expected, actual, notes="")`. -/
structure CheckResult where
  component : String
  status : String
  expected : PyVal
  actual : String
  notes : String
deriving Repr, DecidableEq

/-- The mutable state a `GpuValidator` touches: the global report list and
the validator's own `self.failures` counter. -/
structure VState where
  checks : List CheckResult
  failures : Nat
deriving Repr, DecidableEq

/-- Embedding of `add_check_to_report`: append one structured result to the report. -/
def add_check_to_report (checks : List CheckResult) (c : CheckResult) :
    List CheckResult :=
  checks ++ [c]

/-- Python whitespace for `str.strip` and the regex class `\s`. -/
def isPySpace (c : Char) : Bool :=
  c = ' ' || c = '\t' || c = '\n' || c = '\r' || c = '\x0b' || c = '\x0c'

/-- Python `str.strip()` (no arguments): drop leading and trailing
whitespace. -/
def pyStrip (s : String) : String :=
  ⟨((s.toList.dropWhile isPySpace).reverse.dropWhile isPySpace).reverse⟩

/-- Does `p` occur as a contiguous run at the start of `l`? -/
def charsStart : List Char → List Char → Bool
  | [], _ => true
  | _ :: _, [] => false
  | p :: ps, c :: cs => p = c && charsStart ps cs

/-- Does `p` occur as a contiguous run anywhere in `l`? -/
def charsContain (p : List Char) : List Char → Bool
  | [] => charsStart p []
  | c :: cs => charsStart p (c :: cs) || charsContain p cs

/-- Python `current_value in expected_value` for the two value shapes the
script passes: substring test for a string, membership for a list. -/
def pyIn (v : String) : PyVal → Bool
  | .str s => charsContain v.toList s.toList
  | .strList l => l.contains v

/-- Python `current_value == expected_value` (a string never equals a
list). -/
def pyEqStr (v : String) : PyVal → Bool
  | .str s => v = s
  | .strList _ => false

/-- Leading ASCII digits removed (regex `\d+`, greedy). -/
def dropDigits : List Char → List Char
  | [] => []
  | c :: cs => if c.isDigit then dropDigits cs else c :: cs

/-- Is the head an ASCII digit (regex `\d` needs at least one)? -/
def hasDigitHead : List Char → Bool
  | [] => false
  | c :: _ => c.isDigit

/-- Is the head a Python whitespace character (regex `\s` needs at least
one)? -/
def hasSpaceHead : List Char → Bool
  | [] => false
  | c :: _ => isPySpace c

/-- Leading Python whitespace removed (regex `\s+`, greedy). -/
def dropPySpaces : List Char → List Char
  | [] => []
  | c :: cs => if isPySpace c then dropPySpaces cs else c :: cs

/-- Regex `(.*)`: everything up to the end of the line (`.` does not match
a newline). -/
def takeUntilNl (l : List Char) : List Char :=
  l.takeWhile (fun c => c ≠ '\n')

/-- Lazy capture `(.*?)` followed by the literal `marker`: the shortest
run of non-newline characters after which `marker` starts; `none` when
`marker` never starts before the line ends. -/
def captureUntil (marker : List Char) : List Char → Option (List Char)
  | [] => if charsStart marker [] then some [] else none
  | c :: cs =>
    if charsStart marker (c :: cs) then some []
    else if c = '\n' then none
    else (captureUntil marker cs).map (fun r => c :: r)

/-- Try to match `GPU \d+: (.*?) \(UUID:` at the start of `text`,
returning the capture group (`re.search` attempt at one position). -/
def nvidiaModelMatchAt (text : List Char) : Option (List Char) :=
  if charsStart "GPU ".toList text then
    let rest := text.drop 4
    if hasDigitHead rest then
      let rest2 := dropDigits rest
      if charsStart ": ".toList rest2 then
        captureUntil " (UUID:".toList (rest2.drop 2)
      else none
    else none
  else none

/-- Scan of `re.search` for the NVIDIA model pattern: leftmost position where
the whole pattern matches. -/
def nvidiaModelSearch : List Char → Option (List Char)
  | [] => nvidiaModelMatchAt []
  | c :: cs =>
    match nvidiaModelMatchAt (c :: cs) with
    | some r => some r
    | none => nvidiaModelSearch cs

/-- Embedding of `re.search(r'GPU \d+: (.*?) \(UUID:', line)`, returning group 1. -/
def nvidiaModelParse (line : String) : Option String :=
  (nvidiaModelSearch line.toList).map (fun r => ⟨r⟩)

/-- Try to match `:\s+(.*)` at the start of `text`. -/
def colonWsMatchAt : List Char → Option (List Char)
  | [] => none
  | c :: cs =>
    if c = ':' && hasSpaceHead cs then
      some (takeUntilNl (dropPySpaces cs))
    else none

/-- Scan of `re.search` for `:\s+(.*)`. -/
def colonWsSearch : List Char → Option (List Char)
  | [] => none
  | c :: cs =>
    match colonWsMatchAt (c :: cs) with
    | some r => some r
    | none => colonWsSearch cs

/-- Embedding of `re.search(r':\s+(.*)', line)`, returning group 1. -/
def nvidiaVbiosParse (line : String) : Option String :=
  (colonWsSearch line.toList).map (fun r => ⟨r⟩)

/-- Try to match `Card #\d+:\s+(.*)` at the start of `text`. -/
def amdModelMatchAt (text : List Char) : Option (List Char) :=
  if charsStart "Card #".toList text then
    let rest := text.drop 6
    if hasDigitHead rest then
      let rest2 := dropDigits rest
      match rest2 with
      | ':' :: rest3 =>
        if hasSpaceHead rest3 then some (takeUntilNl (dropPySpaces rest3))
        else none
      | _ => none
    else none
  else none

/-- Scan of `re.search` for the AMD model pattern. -/
def amdModelSearch : List Char → Option (List Char)
  | [] => none
  | c :: cs =>
    match amdModelMatchAt (c :: cs) with
    | some r => some r
    | none => amdModelSearch cs

/-- Embedding of `re.search(r'Card #\d+:\s+(.*)', line)`, returning group 1. -/
def amdModelParse (line : String) : Option String :=
  (amdModelSearch line.toList).map (fun r => ⟨r⟩)

/-- Try to match `VBIOS version:\s+(.*)` at the start of `text`. -/
def amdVbiosMatchAt (text : List Char) : Option (List Char) :=
  if charsStart "VBIOS version:".toList text then
    let rest := text.drop 14
    if hasSpaceHead rest then some (takeUntilNl (dropPySpaces rest))
    else none
  else none

/-- Scan of `re.search` for the AMD VBIOS pattern. -/
def amdVbiosSearch : List Char → Option (List Char)
  | [] => none
  | c :: cs =>
    match amdVbiosMatchAt (c :: cs) with
    | some r => some r
    | none => amdVbiosSearch cs

/-- Embedding of `re.search(r'VBIOS version:\s+(.*)', line)`, returning group 1. -/
def amdVbiosParse (line : String) : Option String :=
  (amdVbiosSearch line.toList).map (fun r => ⟨r⟩)

/-- Python `str.split('\n')` on a character list: splitting an empty
string yields one empty field, and every separator starts a new field. -/
def splitLines : List Char → List (List Char)
  | [] => [[]]
  | c :: cs =>
    if c = '\n' then [] :: splitLines cs
    else
      match splitLines cs with
      | [] => [[c]]
      | r :: rs => (c :: r) :: rs

/-- Python `s.split('\n')`. -/
def pySplitNl (s : String) : List String :=
  (splitLines s.toList).map (fun l => ⟨l⟩)

/-- The synthesized component identifier `f"GPU_{i}_{check_name}"`. -/
def componentName (i : Nat) (check_name : String) : String :=
  "GPU_" ++ toString i ++ "_" ++ check_name

/-- The body of the `for i, line in enumerate(items)` loop of
`GpuValidator._validate_list_of_items` for one line at index `i`. -/
def processItem (check_name : String) (expected : PyVal)
    (parse : String → Option String) (is_vbios : Bool) (i : Nat)
    (line : String) (st : VState) : VState :=
  match parse line with
  | some g =>
    let current_value := pyStrip g
    let is_match := if is_vbios then pyIn current_value expected
                    else pyEqStr current_value expected
    if is_match then
      let c : CheckResult :=
        ⟨componentName i check_name, "PASS", expected, current_value, ""⟩
      { st with checks := add_check_to_report st.checks c }
    else
      let c : CheckResult :=
        ⟨componentName i check_name, "FAIL", expected, current_value, ""⟩
      { checks := add_check_to_report st.checks c,
        failures := st.failures + 1 }
  | none =>
    let c : CheckResult :=
      ⟨componentName i check_name, "FAIL", expected, "Parse Error", line⟩
    { checks := add_check_to_report st.checks c,
      failures := st.failures + 1 }

/-- The enumerate loop of `_validate_list_of_items`, starting at index
`i`. -/
def validateItemsFrom (check_name : String) (expected : PyVal)
    (parse : String → Option String) (is_vbios : Bool) :
    Nat → VState → List String → VState
  | _, st, [] => st
  | i, st, line :: rest =>
    validateItemsFrom check_name expected parse is_vbios (i + 1)
      (processItem check_name expected parse is_vbios i line st) rest

/-- Embedding of `GpuValidator._validate_list_of_items(items, check_name,
expected_value, parser_regex, is_vbios)`. -/
def validateListOfItems (st : VState) (items : List String)
    (check_name : String) (expected : PyVal)
    (parse : String → Option String) (is_vbios : Bool) : VState :=
  if items.isEmpty then { st with failures := st.failures + 1 }
  else validateItemsFrom check_name expected parse is_vbios 0 st items

/-- Embedding of `NvidiaValidator._check_models`: `cmdOut` is the result of
`run_command("nvidia-smi -L")`.  On command failure the failure counter is
incremented and nothing is appended to the report. -/
def nvidiaCheckModels (cmdOut : Option String) (expected_model : String)
    (st : VState) : VState :=
  match cmdOut with
  | none => { st with failures := st.failures + 1 }
  | some models_output =>
    validateListOfItems st (pySplitNl models_output) "Model"
      (.str expected_model) nvidiaModelParse false

/-- Embedding of `NvidiaValidator._check_vbios`: `cmdOut` is the result of
`run_command("nvidia-smi -q | grep 'VBIOS Version'")`. -/
def nvidiaCheckVbios (cmdOut : Option String)
    (expected_vbios_list : List String) (st : VState) : VState :=
  match cmdOut with
  | none => { st with failures := st.failures + 1 }
  | some vbios_output =>
    validateListOfItems st (pySplitNl vbios_output) "VBIOS"
      (.strList expected_vbios_list) nvidiaVbiosParse true

/-- The FAIL check the AMD validator records when the model command
fails. -/
def rocmSmiModelFail : CheckResult :=
  ⟨"ROCM_SMI_MODEL", "FAIL", .str "Command to run", "Command failed", ""⟩

/-- The FAIL check the AMD validator records when the VBIOS command
fails. -/
def rocmSmiVbiosFail : CheckResult :=
  ⟨"ROCM_SMI_VBIOS", "FAIL", .str "Command to run", "Command failed", ""⟩

/-- Embedding of `AmdValidator._check_models`: `cmdOut` is the result of
`run_command("rocm-smi --showproductname")`.  Returns the new state
together with `self.gpu_count` (the number of non-blank output lines;
it stays at its initial value `0` on command failure). -/
def amdCheckModels (cmdOut : Option String) (expected_model : String)
    (st : VState) : VState × Nat :=
  match cmdOut with
  | none =>
    ({ checks := add_check_to_report st.checks rocmSmiModelFail,
       failures := st.failures + 1 }, 0)
  | some models_output =>
    let gpu_models := (pySplitNl models_output).filter
      (fun line => pyStrip line ≠ "")
    (validateListOfItems st gpu_models "Model" (.str expected_model)
      amdModelParse false, gpu_models.length)

/-- Embedding of `AmdValidator._check_vbios`: `cmdOut` is the result of
`run_command("rocm-smi --showvbios")`; `gpu_count` is `self.gpu_count`
set by `_check_models`.  A line-count mismatch increments the failure
counter and skips the per-line comparison without appending anything. -/
def amdCheckVbios (cmdOut : Option String) (gpu_count : Nat)
    (expected_vbios_list : List String) (st : VState) : VState :=
  match cmdOut with
  | none =>
    { checks := add_check_to_report st.checks rocmSmiVbiosFail,
      failures := st.failures + 1 }
  | some vbios_output =>
    let vbios_versions := (pySplitNl vbios_output).filter
      (fun line => pyStrip line ≠ "")
    if vbios_versions.length ≠ gpu_count then
      { st with failures := st.failures + 1 }
    else
      validateListOfItems st vbios_versions "VBIOS"
        (.strList expected_vbios_list) amdVbiosParse true

/-- Embedding of `IntelValidator._check_models`: records a single SKIP placeholder. -/
def intelCheckModels (st : VState) : VState :=
  let c : CheckResult := ⟨"Intel_Check", "SKIP", .str "N/A", "N/A", "Not Implemented"⟩
  { st with checks := add_check_to_report st.checks c }

/-- Embedding of `IntelValidator._check_vbios`: performs no action. -/
def intelCheckVbios (st : VState) : VState :=
  st

/-- The closed set of concrete `GpuValidator` subclasses. -/
inductive Vendor where
  | nvidia
  | amd
  | intel
deriving Repr, DecidableEq

/-- The `self.vendor_name` of each concrete validator. -/
def vendor_name : Vendor → String
  | .nvidia => "NVIDIA"
  | .amd => "AMD"
  | .intel => "Intel"

/-- The host environment a run observes: the results of the shell
commands the script may run (already stripped, `none` = command failed)
and which diagnostic tools `shutil.which` finds. -/
structure Env where
  dmidecode : Option String
  nvidiaSmiL : Option String
  nvidiaSmiVbios : Option String
  rocmSmiModel : Option String
  rocmSmiVbios : Option String
  whichNvidia : Bool
  whichRocm : Bool
  whichLevelZero : Bool
deriving Repr, DecidableEq

/-- The `gpu_spec` section of a model's entry in the golden YAML; a key
is `none` when absent (Python raises `KeyError` on access). -/
structure GpuSpec where
  expected_model : Option String
  expected_vbios_list : Option (List String)
deriving Repr, DecidableEq

/-- Dispatch of the abstract `_check_models` / `_check_vbios` pair:
run both checks of the chosen validator against the environment,
threading the AMD validator's `gpu_count` between them. -/
def runVendorChecks (v : Vendor) (env : Env) (expected_model : String)
    (expected_vbios_list : List String) (st : VState) : VState :=
  match v with
  | .nvidia =>
    nvidiaCheckVbios env.nvidiaSmiVbios expected_vbios_list
      (nvidiaCheckModels env.nvidiaSmiL expected_model st)
  | .amd =>
    let r := amdCheckModels env.rocmSmiModel expected_model st
    amdCheckVbios env.rocmSmiVbios r.2 expected_vbios_list r.1
  | .intel =>
    intelCheckVbios (intelCheckModels st)

/-- The FAIL check `GpuValidator.validate` records when a required key is
missing from the gpu_spec section; `key` is `str(KeyError)`, e.g.
`"'expected_model'"`. -/
def configFailCheck (v : Vendor) (key : String) : CheckResult :=
  ⟨(vendor_name v).toUpper ++ "_CONFIG", "FAIL", .str "Config to be present",
    "Missing keys", key⟩

/-- Embedding of `GpuValidator.validate`: the generic validation flow.  The validator
starts with `self.failures = 0`; the result pairs the returned boolean
(`self.failures == 0`) with the final state. -/
def validate (v : Vendor) (spec : GpuSpec) (env : Env)
    (checks : List CheckResult) : Bool × VState :=
  match spec.expected_model with
  | none =>
    (false, ⟨add_check_to_report checks (configFailCheck v "'expected_model'"), 1⟩)
  | some expected_model =>
    match spec.expected_vbios_list with
    | none =>
      (false,
        ⟨add_check_to_report checks (configFailCheck v "'expected_vbios_list'"), 1⟩)
    | some expected_vbios_list =>
      let st := runVendorChecks v env expected_model expected_vbios_list
        ⟨checks, 0⟩
      (st.failures == 0, st)

/-- Embedding of `get_validator`: the factory.  Unrecognized vendor tags yield `none`
(no exception — the function is total). -/
def get_validator (expected_vendor : String) : Option Vendor :=
  if expected_vendor = "nvidia" then some .nvidia
  else if expected_vendor = "amd" then some .amd
  else if expected_vendor = "intel" then some .intel
  else none

/-- A model's entry in the golden YAML.  `none` models both a missing key
and a falsy value (Python guards both with `if not …`). -/
structure ModelSpec where
  expected_gpu_vendor : Option String
  gpu_spec : Option GpuSpec
deriving Repr, DecidableEq

/-- The golden YAML document: system model identifier → spec. -/
def Config : Type :=
  List (String × ModelSpec)

/-- Embedding of `current_model in config` / `config[current_model]`. -/
def lookupConfig (config : Config) (current_model : String) :
    Option ModelSpec :=
  List.lookup current_model config

/-- The tool-detection cascade of `run_validation`: first of
`nvidia-smi`, `rocm-smi`, `level-zero-ctl` found by `shutil.which`. -/
def toolFound (env : Env) : Option String :=
  if env.whichNvidia then some "nvidia"
  else if env.whichRocm then some "amd"
  else if env.whichLevelZero then some "intel"
  else none

/-- Python `str(tool_found)` where `tool_found : Optional[str]`. -/
def pyStrOpt : Option String → String
  | none => "None"
  | some s => s

/-- The tail of `run_validation` reached after the GPU_Vendor PASS check:
require `gpu_spec`, build the validator via the factory and run it.
Returns the failure count contributed by this part and the new report.
When the factory yields no validator (`if validator and …`), nothing is
recorded and no failure is counted. -/
def componentValidation (expected_vendor : String) (model_spec : ModelSpec)
    (env : Env) (checks : List CheckResult) : Nat × List CheckResult :=
  match model_spec.gpu_spec with
  | none =>
    (1, add_check_to_report checks
      (⟨"GPU_Spec", "FAIL", .str "Spec to exist", "Not Defined in YAML", ""⟩))
  | some gpu_spec =>
    match get_validator expected_vendor with
    | none => (0, checks)
    | some v =>
      let r := validate v gpu_spec env checks
      (if r.1 then 0 else r.2.failures, r.2.checks)

/-- Embedding of `run_validation(current_model, config)`: returns the failure count and
the report after the run. -/
def run_validation (current_model : String) (config : Config) (env : Env)
    (checks : List CheckResult) : Nat × List CheckResult :=
  match lookupConfig config current_model with
  | none =>
    (1, add_check_to_report checks
      (⟨"YAML_Spec", "FAIL", .str ("Spec for " ++ current_model), "Not Found", ""⟩))
  | some model_spec =>
    match model_spec.expected_gpu_vendor with
    | none =>
      (1, add_check_to_report checks
        (⟨"GPU_Vendor", "FAIL", .str "Vendor Spec", "Not Defined in YAML", ""⟩))
    | some expected_vendor =>
      if expected_vendor = "" then
        (1, add_check_to_report checks
          (⟨"GPU_Vendor", "FAIL", .str "Vendor Spec", "Not Defined in YAML", ""⟩))
      else if toolFound env ≠ some expected_vendor then
        (1, add_check_to_report checks
          (⟨"GPU_Vendor", "FAIL", .str expected_vendor,
            pyStrOpt (toolFound env), ""⟩))
      else
        let checks1 := add_check_to_report checks
          (⟨"GPU_Vendor", "PASS", .str expected_vendor, expected_vendor, ""⟩)
        componentValidation expected_vendor model_spec env checks1

/-- The FAIL check `get_system_model` records when `dmidecode` fails or
returns an empty string. -/
def systemModelFail : CheckResult :=
  ⟨"System_Model", "FAIL", .str "Any Model", "Read Error", ""⟩

/-- Embedding of `get_system_model`: resolve the host's model string; the Python
`if not current_model` guard catches both the failure value and the empty
string. -/
def get_system_model (env : Env) (checks : List CheckResult) :
    Option String × List CheckResult :=
  match env.dmidecode with
  | none => (none, add_check_to_report checks systemModelFail)
  | some m =>
    if m = "" then (none, add_check_to_report checks systemModelFail)
    else (some m, checks)

/-- Embedding of `write_report`: the final status written into the report. -/
def write_report_status (failures : Nat) : String :=
  if failures = 0 then "PASS" else "FAIL"

/-- The time-independent part of a `main()` run: final status, resolved
system model and accumulated checks, or `none` when the process exits
before `write_report` is reached (unreadable system model, or a config
document that failed to load — modelled as `config = none`). -/
def runCore (env : Env) (config : Option Config) :
    Option (String × String × List CheckResult) :=
  match get_system_model env [] with
  | (none, _) => none
  | (some system_model, checks0) =>
    match config with
    | none => none
    | some cfg =>
      let r := run_validation system_model cfg env checks0
      some (write_report_status r.1, system_model, r.2)

/-- The finalized JSON report (`report_data` at the time `write_report`
serializes it). -/
structure Report where
  report_id : String
  status : String
  system_model : String
  checks_performed : List CheckResult
deriving Repr, DecidableEq

/-- A whole `main()` run: `time` is the timestamp captured at module load
(it only enters `report_id`); the result is the finalized report, or
`none` when the process exits before writing one. -/
def runMain (time : String) (env : Env) (config : Option Config) :
    Option Report :=
  (runCore env config).map
    (fun r => ⟨"validation_report_" ++ time, r.1, r.2.1, r.2.2⟩)

/-! Specification-side definitions used to state properties of the
embedding. -/

/-- The single `CheckResult` the loop body of `_validate_list_of_items`
appends for the line `line` at index `i` (proved equal to the effect of
`processItem` below). -/
def singleCheck (check_name : String) (expected : PyVal)
    (parse : String → Option String) (is_vbios : Bool) (i : Nat)
    (line : String) : CheckResult :=
  match parse line with
  | some g =>
    let current_value := pyStrip g
    let is_match := if is_vbios then pyIn current_value expected
                    else pyEqStr current_value expected
    if is_match then
      ⟨componentName i check_name, "PASS", expected, current_value, ""⟩
    else
      ⟨componentName i check_name, "FAIL", expected, current_value, ""⟩
  | none =>
    ⟨componentName i check_name, "FAIL", expected, "Parse Error", line⟩

/-- Number of FAIL entries in a list of checks. -/
def countFail (l : List CheckResult) : Nat :=
  (l.filter (fun c => c.status == "FAIL")).length

/-- State `st'` extends `st` by appending `d` checks and adding `fd` failures,
with at most `fd` of the appended checks being FAIL entries. -/
def Accrues (st st' : VState) : Prop :=
  ∃ d fd, st'.checks = st.checks ++ d ∧ st'.failures = st.failures + fd ∧
    countFail d ≤ fd

/-- State `st'` extends `st`: the report grew only at the end and the failure
counter did not decrease. -/
def AppendOnly (st st' : VState) : Prop :=
  (∃ d, st'.checks = st.checks ++ d) ∧ st.failures ≤ st'.failures

/-! Concrete hosts and configs used as witnesses and counterexamples. -/

/-- A host whose model is `M1`, with `nvidia-smi` installed but both
NVIDIA commands failing. -/
def envNvidiaCmdFail : Env :=
  ⟨some "M1", none, none, none, none, true, false, false⟩

/-- A host whose model is `M1`, with only `rocm-smi` installed. -/
def envAmdToolOnly : Env :=
  ⟨some "M1", none, none, none, none, false, true, false⟩

/-- A host whose model is `M1`, with no GPU tool installed and all GPU
commands failing. -/
def envNoTools : Env :=
  ⟨some "M1", none, none, none, none, false, false, false⟩

/-- A config declaring vendor `nvidia` for system model `M1`. -/
def cfgNvidia : Config :=
  [("M1", ⟨some "nvidia", some ⟨some "X", some ["V"]⟩⟩)]

/-- A config declaring an unrecognized vendor for system model `M1`. -/
def cfgBadVendor : Config :=
  [("M1", ⟨some "tenstorrent", some ⟨some "X", some ["V"]⟩⟩)]

/-! Supporting lemmas. -/

lemma countFail_nil : countFail [] = 0 := by
  simp [countFail]

lemma countFail_append (l₁ l₂ : List CheckResult) :
    countFail (l₁ ++ l₂) = countFail l₁ + countFail l₂ := by
  simp [countFail, List.filter_append]

lemma countFail_singleton (c : CheckResult) :
    countFail [c] = if c.status = "FAIL" then 1 else 0 := by
  by_cases h : c.status = "FAIL"
  · simp [countFail, h]
  · have hb : (c.status == "FAIL") = false := by
      simpa using h
    simp [countFail, hb, h]

lemma countFail_pos_of_mem {c : CheckResult} {l : List CheckResult}
    (hm : c ∈ l) (hf : c.status = "FAIL") : 1 ≤ countFail l := by
  have : c ∈ l.filter (fun c => c.status == "FAIL") :=
    List.mem_filter.mpr ⟨hm, by simp [hf]⟩
  have := List.length_pos.mpr (List.ne_nil_of_mem this)
  simpa [countFail] using this

lemma processItem_eq (cn : String) (e : PyVal) (p : String → Option String)
    (b : Bool) (i : Nat) (line : String) (st : VState) :
    processItem cn e p b i line st =
      ⟨st.checks ++ [singleCheck cn e p b i line],
        st.failures +
          (if (singleCheck cn e p b i line).status = "FAIL" then 1 else 0)⟩ := by
  unfold processItem singleCheck add_check_to_report
  cases hp : p line with
  | none => simp
  | some g =>
    dsimp only
    by_cases hm : (if b then pyIn (pyStrip g) e else pyEqStr (pyStrip g) e) = true
    · simp [hm]
    · simp [hm]

lemma singleCheck_component (cn : String) (e : PyVal)
    (p : String → Option String) (b : Bool) (i : Nat) (line : String) :
    (singleCheck cn e p b i line).component = componentName i cn := by
  unfold singleCheck
  cases hp : p line with
  | none => simp
  | some g =>
    dsimp only
    split_ifs with h <;> simp

lemma validateItemsFrom_eq (cn : String) (e : PyVal)
    (p : String → Option String) (b : Bool) :
    ∀ (items : List String) (i : Nat) (st : VState),
    ∃ d fd,
      validateItemsFrom cn e p b i st items =
        ⟨st.checks ++ d, st.failures + fd⟩ ∧
      d.length = items.length ∧
      countFail d ≤ fd ∧
      (∀ (j : Nat) (h : j < d.length) (h' : j < items.length),
        d.get ⟨j, h⟩ = singleCheck cn e p b (i + j) (items.get ⟨j, h'⟩)) := by
  intro items
  induction items with
  | nil =>
    intro i st
    exact ⟨[], 0, by simp [validateItemsFrom], by simp, by simp [countFail_nil],
      by intro j h h'; simp at h⟩
  | cons line rest ih =>
    intro i st
    obtain ⟨d', fd', heq, hlen, hcf, hget⟩ :=
      ih (i + 1) (processItem cn e p b i line st)
    refine ⟨singleCheck cn e p b i line :: d',
      (if (singleCheck cn e p b i line).status = "FAIL" then 1 else 0) + fd',
      ?_, ?_, ?_, ?_⟩
    · show validateItemsFrom cn e p b (i + 1)
        (processItem cn e p b i line st) rest = _
      rw [heq, processItem_eq]
      simp [Nat.add_assoc]
    · simp [hlen]
    · have : countFail (singleCheck cn e p b i line :: d') =
          countFail [singleCheck cn e p b i line] + countFail d' := by
        simpa using countFail_append [singleCheck cn e p b i line] d'
      rw [this, countFail_singleton]
      omega
    · intro j h h'
      cases j with
      | zero => simp
      | succ j =>
        have h₁ : j < d'.length := by simpa using h
        have h₂ : j < rest.length := by simpa using h'
        have := hget j h₁ h₂
        simpa [Nat.add_assoc, Nat.add_comm 1 j] using this

lemma accrues_trans {a b c : VState} (h₁ : Accrues a b) (h₂ : Accrues b c) :
    Accrues a c := by
  obtain ⟨d₁, f₁, hc₁, hf₁, hcf₁⟩ := h₁
  obtain ⟨d₂, f₂, hc₂, hf₂, hcf₂⟩ := h₂
  refine ⟨d₁ ++ d₂, f₁ + f₂, ?_, ?_, ?_⟩
  · rw [hc₂, hc₁, List.append_assoc]
  · rw [hf₂, hf₁, Nat.add_assoc]
  · rw [countFail_append]
    omega

lemma accrues_validateItemsFrom (cn : String) (e : PyVal)
    (p : String → Option String) (b : Bool) (items : List String) (i : Nat)
    (st : VState) : Accrues st (validateItemsFrom cn e p b i st items) := by
  obtain ⟨d, fd, heq, -, hcf, -⟩ := validateItemsFrom_eq cn e p b items i st
  exact ⟨d, fd, by rw [heq], by rw [heq], hcf⟩

lemma accrues_validateListOfItems (st : VState) (items : List String)
    (cn : String) (e : PyVal) (p : String → Option String) (b : Bool) :
    Accrues st (validateListOfItems st items cn e p b) := by
  unfold validateListOfItems
  by_cases h : items.isEmpty
  · rw [if_pos h]
    exact ⟨[], 1, by simp, rfl, by simp [countFail_nil]⟩
  · rw [if_neg h]
    exact accrues_validateItemsFrom cn e p b items 0 st

lemma accrues_nvidiaCheckModels (cmdOut : Option String) (m : String)
    (st : VState) : Accrues st (nvidiaCheckModels cmdOut m st) := by
  cases cmdOut with
  | none => exact ⟨[], 1, by simp [nvidiaCheckModels], rfl, by simp [countFail_nil]⟩
  | some out =>
    exact accrues_validateListOfItems st (pySplitNl out) "Model"
      (.str m) nvidiaModelParse false

lemma accrues_nvidiaCheckVbios (cmdOut : Option String) (l : List String)
    (st : VState) : Accrues st (nvidiaCheckVbios cmdOut l st) := by
  cases cmdOut with
  | none => exact ⟨[], 1, by simp [nvidiaCheckVbios], rfl, by simp [countFail_nil]⟩
  | some out =>
    exact accrues_validateListOfItems st (pySplitNl out) "VBIOS"
      (.strList l) nvidiaVbiosParse true

lemma accrues_amdCheckModels (cmdOut : Option String) (m : String)
    (st : VState) : Accrues st (amdCheckModels cmdOut m st).1 := by
  cases cmdOut with
  | none =>
    exact ⟨[rocmSmiModelFail], 1, rfl, rfl, by
      simp [countFail_singleton, rocmSmiModelFail]⟩
  | some out =>
    exact accrues_validateListOfItems st
      ((pySplitNl out).filter (fun line => pyStrip line ≠ "")) "Model"
      (.str m) amdModelParse false

lemma accrues_amdCheckVbios (cmdOut : Option String) (cnt : Nat)
    (l : List String) (st : VState) :
    Accrues st (amdCheckVbios cmdOut cnt l st) := by
  cases cmdOut with
  | none =>
    exact ⟨[rocmSmiVbiosFail], 1, rfl, rfl, by
      simp [countFail_singleton, rocmSmiVbiosFail]⟩
  | some out =>
    unfold amdCheckVbios
    dsimp only
    by_cases h :
      ((pySplitNl out).filter (fun line => pyStrip line ≠ "")).length ≠ cnt
    · rw [if_pos h]
      exact ⟨[], 1, by simp, rfl, by simp [countFail_nil]⟩
    · rw [if_neg h]
      exact accrues_validateListOfItems st
        ((pySplitNl out).filter (fun line => pyStrip line ≠ "")) "VBIOS"
        (.strList l) amdVbiosParse true

lemma accrues_intelCheckModels (st : VState) :
    Accrues st (intelCheckModels st) := by
  refine ⟨[⟨"Intel_Check", "SKIP", .str "N/A", "N/A", "Not Implemented"⟩], 0,
    rfl, rfl, ?_⟩
  simp [countFail_singleton]

lemma accrues_runVendorChecks (v : Vendor) (env : Env) (m : String)
    (l : List String) (st : VState) :
    Accrues st (runVendorChecks v env m l st) := by
  cases v with
  | nvidia =>
    exact accrues_trans (accrues_nvidiaCheckModels env.nvidiaSmiL m st)
      (accrues_nvidiaCheckVbios env.nvidiaSmiVbios l _)
  | amd =>
    exact accrues_trans (accrues_amdCheckModels env.rocmSmiModel m st)
      (accrues_amdCheckVbios env.rocmSmiVbios _ l _)
  | intel =>
    exact accrues_intelCheckModels st

lemma validate_spec (v : Vendor) (spec : GpuSpec) (env : Env)
    (checks : List CheckResult) :
    ∃ d, (validate v spec env checks).2.checks = checks ++ d ∧
      countFail d ≤ (validate v spec env checks).2.failures ∧
      ((validate v spec env checks).1 = true ↔
        (validate v spec env checks).2.failures = 0) := by
  unfold validate
  cases spec.expected_model with
  | none =>
    refine ⟨[configFailCheck v "'expected_model'"], rfl, ?_, by simp⟩
    simp [countFail_singleton, configFailCheck]
  | some m =>
    cases spec.expected_vbios_list with
    | none =>
      refine ⟨[configFailCheck v "'expected_vbios_list'"], rfl, ?_, by simp⟩
      simp [countFail_singleton, configFailCheck]
    | some l =>
      dsimp only
      obtain ⟨d, fd, hc, hf, hcf⟩ :=
        accrues_runVendorChecks v env m l ⟨checks, 0⟩
      refine ⟨d, hc, ?_, by simp⟩
      simp only [hf]
      omega

lemma componentValidation_spec (ev : String) (ms : ModelSpec) (env : Env)
    (checks : List CheckResult) :
    ∃ d, (componentValidation ev ms env checks).2 = checks ++ d ∧
      countFail d ≤ (componentValidation ev ms env checks).1 := by
  unfold componentValidation
  cases ms.gpu_spec with
  | none =>
    refine ⟨[⟨"GPU_Spec", "FAIL", .str "Spec to exist",
      "Not Defined in YAML", ""⟩], rfl, ?_⟩
    simp [countFail_singleton]
  | some gs =>
    cases get_validator ev with
    | none => exact ⟨[], by simp, by simp [countFail_nil]⟩
    | some v =>
      dsimp only
      obtain ⟨d, hc, hcf, hok⟩ := validate_spec v gs env checks
      refine ⟨d, hc, ?_⟩
      by_cases h : (validate v gs env checks).1 = true
      · have := hok.mp h
        rw [if_pos h]
        omega
      · rw [if_neg h]
        exact hcf

lemma run_validation_spec (cm : String) (cfg : Config) (env : Env)
    (checks : List CheckResult) :
    ∃ d, (run_validation cm cfg env checks).2 = checks ++ d ∧
      countFail d ≤ (run_validation cm cfg env checks).1 := by
  rcases hms : lookupConfig cfg cm with _ | ms
  · refine ⟨[⟨"YAML_Spec", "FAIL", .str ("Spec for " ++ cm), "Not Found", ""⟩],
      ?_, ?_⟩
    · simp [run_validation, hms, add_check_to_report]
    · simp [run_validation, hms, countFail_singleton]
  · rcases hev : ms.expected_gpu_vendor with _ | ev
    · refine ⟨[⟨"GPU_Vendor", "FAIL", .str "Vendor Spec",
        "Not Defined in YAML", ""⟩], ?_, ?_⟩
      · simp [run_validation, hms, hev, add_check_to_report]
      · simp [run_validation, hms, hev, countFail_singleton]
    · by_cases h0 : ev = ""
      · refine ⟨[⟨"GPU_Vendor", "FAIL", .str "Vendor Spec",
          "Not Defined in YAML", ""⟩], ?_, ?_⟩
        · simp [run_validation, hms, hev, h0, add_check_to_report]
        · simp [run_validation, hms, hev, h0, countFail_singleton]
      · by_cases h1 : toolFound env ≠ some ev
        · refine ⟨[⟨"GPU_Vendor", "FAIL", .str ev,
            pyStrOpt (toolFound env), ""⟩], ?_, ?_⟩
          · simp [run_validation, hms, hev, h0, h1, add_check_to_report]
          · simp [run_validation, hms, hev, h0, h1, countFail_singleton]
        · obtain ⟨d, hc, hcf⟩ := componentValidation_spec ev ms env
            (add_check_to_report checks
              (⟨"GPU_Vendor", "PASS", .str ev, ev, ""⟩))
          have hrun : run_validation cm cfg env checks =
              componentValidation ev ms env
                (add_check_to_report checks
                  (⟨"GPU_Vendor", "PASS", .str ev, ev, ""⟩)) := by
            simp [run_validation, hms, hev, h0, h1]
          refine ⟨⟨"GPU_Vendor", "PASS", .str ev, ev, ""⟩ :: d, ?_, ?_⟩
          · rw [hrun, hc]
            simp [add_check_to_report]
          · rw [hrun]
            have hsplit :
                countFail (⟨"GPU_Vendor", "PASS", .str ev, ev, ""⟩ :: d) =
                countFail [⟨"GPU_Vendor", "PASS", .str ev, ev, ""⟩] +
                  countFail d := by
              simpa using
                countFail_append [⟨"GPU_Vendor", "PASS", .str ev, ev, ""⟩] d
            rw [hsplit, countFail_singleton,
              if_neg (show ¬("PASS" : String) = "FAIL" by simp)]
            omega

lemma appendOnly_of_accrues {st st' : VState} (h : Accrues st st') :
    AppendOnly st st' := by
  obtain ⟨d, fd, hc, hf, -⟩ := h
  exact ⟨⟨d, hc⟩, by omega⟩

lemma accrues_processItem (cn : String) (e : PyVal)
    (p : String → Option String) (b : Bool) (i : Nat) (line : String)
    (st : VState) : Accrues st (processItem cn e p b i line st) := by
  rw [processItem_eq]
  refine ⟨[singleCheck cn e p b i line],
    if (singleCheck cn e p b i line).status = "FAIL" then 1 else 0,
    rfl, rfl, ?_⟩
  rw [countFail_singleton]

lemma runCore_status (env : Env) (config : Option Config) (s m : String)
    (cs : List CheckResult) (h : runCore env config = some (s, m, cs)) :
    (s = "PASS" ∨ s = "FAIL") ∧ (1 ≤ countFail cs → s = "FAIL") := by
  rcases hd : env.dmidecode with _ | mm
  · simp [runCore, get_system_model, hd] at h
  · by_cases hmm : mm = ""
    · simp [runCore, get_system_model, hd, hmm] at h
    · rcases config with _ | cfg
      · simp [runCore, get_system_model, hd, hmm] at h
      · have h2 : runCore env (some cfg) =
            some (write_report_status (run_validation mm cfg env []).1, mm,
              (run_validation mm cfg env []).2) := by
          simp [runCore, get_system_model, hd, hmm]
        rw [h2] at h
        simp only [Option.some.injEq, Prod.mk.injEq] at h
        obtain ⟨hs, -, hcs⟩ := h
        replace hs := hs.symm
        replace hcs := hcs.symm
        obtain ⟨d, hc, hcf⟩ := run_validation_spec mm cfg env []
        constructor
        · rw [hs]
          unfold write_report_status
          split_ifs
          · exact Or.inl rfl
          · exact Or.inr rfl
        · intro hone
          rw [hcs, hc] at hone
          simp only [List.nil_append] at hone
          have : 1 ≤ (run_validation mm cfg env []).1 := le_trans hone hcf
          rw [hs]
          unfold write_report_status
          rw [if_neg (by omega)]

/-! Claim theorems. -/

/-- C1 (counterexample): a finalized report can have overall status FAIL
while no entry of `checks_performed` has status FAIL, so "status is PASS
iff no CheckResult has status FAIL" is false.  On a host whose `nvidia-smi`
commands fail after the vendor gate passed, the Nvidia validator
increments its failure counter without appending any FAIL check, and the
only recorded check is the passing `GPU_Vendor` entry. -/
theorem C1_counterexample :
    runMain "T" envNvidiaCmdFail (some cfgNvidia) =
      some ⟨"validation_report_T", "FAIL", "M1",
        [⟨"GPU_Vendor", "PASS", PyVal.str "nvidia", "nvidia", ""⟩]⟩ ∧
    countFail
      [(⟨"GPU_Vendor", "PASS", PyVal.str "nvidia", "nvidia", ""⟩ :
        CheckResult)] = 0 := by
  exact ⟨by decide, by decide⟩

/-- C1 (amended): in every finalized report, any FAIL entry in
`checks_performed` forces overall status FAIL (equivalently, status PASS
implies no FAIL entry); the converse direction of the claimed equivalence
does not hold. -/
theorem C1_pass_implies_no_fail_entries :
    ∀ (time : String) (env : Env) (config : Option Config) (r : Report),
    runMain time env config = some r →
    ((∃ c ∈ r.checks_performed, c.status = "FAIL") → r.status = "FAIL") ∧
    (r.status = "PASS" → ∀ c ∈ r.checks_performed, c.status ≠ "FAIL") := by
  intro time env config r h
  rcases hr : runCore env config with _ | core
  · rw [runMain, hr] at h
    simp at h
  · rw [runMain, hr] at h
    simp only [Option.map_some', Option.some.injEq] at h
    obtain ⟨-, hch⟩ := runCore_status env config core.1 core.2.1 core.2.2
      (by rw [hr])
    constructor
    · rintro ⟨c, hmem, hfail⟩
      rw [← h]
      have : 1 ≤ countFail r.checks_performed :=
        countFail_pos_of_mem hmem hfail
      rw [← h] at this
      exact hch this
    · intro hpass c hmem hfail
      have : 1 ≤ countFail r.checks_performed :=
        countFail_pos_of_mem hmem hfail
      rw [← h] at this
      have := hch this
      rw [← h] at hpass
      simp only [this] at hpass
      exact absurd hpass (by decide)

/-- C1 (witness): instantiation of the amended theorem at a concrete
vendor-mismatch run, whose report holds a FAIL `GPU_Vendor` entry. -/
theorem C1_pass_implies_no_fail_entries_witness :
    (⟨"validation_report_T", "FAIL", "M1",
      [⟨"GPU_Vendor", "FAIL", PyVal.str "nvidia", "amd", ""⟩]⟩ :
        Report).status = "FAIL" :=
  (C1_pass_implies_no_fail_entries "T" envAmdToolOnly (some cfgNvidia)
      ⟨"validation_report_T", "FAIL", "M1",
        [⟨"GPU_Vendor", "FAIL", PyVal.str "nvidia", "amd", ""⟩]⟩
      (by decide)).1
    ⟨⟨"GPU_Vendor", "FAIL", PyVal.str "nvidia", "amd", ""⟩, by decide⟩

/-- C2 (counterexample): when the NVIDIA inventory command fails, zero
CheckResults are appended (the failure counter is incremented, but no
per-vendor FAIL check is recorded), so "exactly one FAIL CheckResult with
a per-vendor component tag is appended" is false for the NVIDIA
validator. -/
theorem C2_counterexample :
    (nvidiaCheckModels none "NVIDIA H100 80GB PCIe" ⟨[], 0⟩).checks = [] ∧
    (nvidiaCheckModels none "NVIDIA H100 80GB PCIe" ⟨[], 0⟩).failures = 1 :=
  ⟨rfl, rfl⟩

/-- C2 (amended): on command failure the AMD validator appends exactly one
FAIL CheckResult with a per-vendor component tag (`ROCM_SMI_MODEL` /
`ROCM_SMI_VBIOS`) and increments its failure counter by exactly 1 without
parsing; the NVIDIA validator increments its failure counter by exactly 1
without parsing but appends no CheckResult at all. -/
theorem C2_command_failure :
    ∀ (st : VState) (m : String) (l : List String) (cnt : Nat),
    nvidiaCheckModels none m st = { st with failures := st.failures + 1 } ∧
    nvidiaCheckVbios none l st = { st with failures := st.failures + 1 } ∧
    amdCheckModels none m st =
      ({ checks := st.checks ++ [rocmSmiModelFail],
         failures := st.failures + 1 }, 0) ∧
    amdCheckVbios none cnt l st =
      { checks := st.checks ++ [rocmSmiVbiosFail],
        failures := st.failures + 1 } := by
  intro st m l cnt
  exact ⟨rfl, rfl, rfl, rfl⟩

/-- C3 (confirmed): when the number of non-blank VBIOS output lines
differs from the previously discovered GPU count, `AmdValidator._check_vbios`
increments the failure counter by exactly 1 and leaves the report
unchanged — the line-by-line comparison is skipped entirely and zero
`GPU_<i>_VBIOS` CheckResults are appended. -/
theorem C3_vbios_count_mismatch :
    ∀ (out : String) (cnt : Nat) (l : List String) (st : VState),
    ((pySplitNl out).filter (fun line => pyStrip line ≠ "")).length ≠ cnt →
    amdCheckVbios (some out) cnt l st =
      { st with failures := st.failures + 1 } := by
  intro out cnt l st h
  unfold amdCheckVbios
  dsimp only
  rw [if_pos h]

/-- C3 (witness): one non-blank VBIOS line against a GPU count of 2. -/
theorem C3_vbios_count_mismatch_witness :
    amdCheckVbios (some "Card #0: VBIOS version: V") 2 ["V"] ⟨[], 0⟩ =
      ⟨[], 1⟩ :=
  C3_vbios_count_mismatch "Card #0: VBIOS version: V" 2 ["V"] ⟨[], 0⟩
    (by decide)

/-- C4 (confirmed): for an empty items sequence,
`_validate_list_of_items` increments the caller's failure counter by
exactly 1 and appends no CheckResult (no per-line iteration occurs). -/
theorem C4_empty_items :
    ∀ (st : VState) (cn : String) (e : PyVal)
      (p : String → Option String) (b : Bool),
    validateListOfItems st [] cn e p b =
      { st with failures := st.failures + 1 } := by
  intro st cn e p b
  rfl

/-- C5 (confirmed): for a non-empty items sequence,
`_validate_list_of_items` appends exactly one CheckResult per input line,
in line order; the result for line `j` is the check computed from that
line, and its component identifier is `"GPU_<j>_<check_name>"` with `j`
the zero-based line index. -/
theorem C5_per_line_results :
    ∀ (st : VState) (items : List String) (cn : String) (e : PyVal)
      (p : String → Option String) (b : Bool),
    items ≠ [] →
    ∃ d, (validateListOfItems st items cn e p b).checks = st.checks ++ d ∧
      d.length = items.length ∧
      (∀ (j : Nat) (h : j < d.length) (h' : j < items.length),
        d.get ⟨j, h⟩ = singleCheck cn e p b j (items.get ⟨j, h'⟩) ∧
        (d.get ⟨j, h⟩).component = componentName j cn) := by
  intro st items cn e p b hne
  have hemp : items.isEmpty = false := by
    cases items with
    | nil => exact absurd rfl hne
    | cons a l => rfl
  obtain ⟨d, fd, heq, hlen, -, hget⟩ :=
    validateItemsFrom_eq cn e p b items 0 st
  refine ⟨d, ?_, hlen, ?_⟩
  · unfold validateListOfItems
    rw [hemp]
    simp only [Bool.false_eq_true, if_false, heq]
  · intro j h h'
    have := hget j h h'
    rw [Nat.zero_add] at this
    exact ⟨this, by rw [this, singleCheck_component]⟩

/-- C5 (witness): two NVIDIA inventory lines produce two results with
components `GPU_0_Model` and `GPU_1_Model`. -/
theorem C5_per_line_results_witness :
    ∃ d, (validateListOfItems ⟨[], 0⟩
        ["GPU 0: X (UUID: a)", "GPU 1: Y (UUID: b)"] "Model"
        (.str "X") nvidiaModelParse false).checks = [] ++ d ∧
      d.length = (["GPU 0: X (UUID: a)", "GPU 1: Y (UUID: b)"] :
        List String).length ∧
      (∀ (j : Nat) (h : j < d.length)
        (h' : j < (["GPU 0: X (UUID: a)", "GPU 1: Y (UUID: b)"] :
          List String).length),
        d.get ⟨j, h⟩ = singleCheck "Model" (.str "X") nvidiaModelParse false j
          ((["GPU 0: X (UUID: a)", "GPU 1: Y (UUID: b)"] :
            List String).get ⟨j, h'⟩) ∧
        (d.get ⟨j, h⟩).component = componentName j "Model") :=
  C5_per_line_results ⟨[], 0⟩ ["GPU 0: X (UUID: a)", "GPU 1: Y (UUID: b)"]
    "Model" (.str "X") nvidiaModelParse false (by decide)

/-- C6 (confirmed): when the detected vendor tool differs from the
declared expected vendor (including no tool found), the finalized report
contains exactly one check — a FAIL for component `GPU_Vendor` — so no
`GPU_<i>_*` component check is ever appended in that run. -/
theorem C6_vendor_mismatch_stops_run :
    ∀ (time : String) (env : Env) (cfg : Config) (model : String)
      (ms : ModelSpec) (ev : String),
    env.dmidecode = some model → model ≠ "" →
    lookupConfig cfg model = some ms →
    ms.expected_gpu_vendor = some ev → ev ≠ "" →
    toolFound env ≠ some ev →
    runMain time env (some cfg) =
      some ⟨"validation_report_" ++ time, "FAIL", model,
        [⟨"GPU_Vendor", "FAIL", .str ev, pyStrOpt (toolFound env), ""⟩]⟩ := by
  intro time env cfg model ms ev hd hm hms hev h0 h1
  simp [runMain, runCore, get_system_model, hd, hm, run_validation, hms, hev,
    h0, h1, write_report_status, add_check_to_report]

/-- C6 (witness): declared vendor nvidia with only the AMD tool present
stops at the vendor gate with the single FAIL `GPU_Vendor` entry. -/
theorem C6_vendor_mismatch_stops_run_witness :
    runMain "T" envAmdToolOnly (some cfgNvidia) =
      some ⟨"validation_report_T", "FAIL", "M1",
        [⟨"GPU_Vendor", "FAIL", .str "nvidia", "amd", ""⟩]⟩ :=
  C6_vendor_mismatch_stops_run "T" envAmdToolOnly cfgNvidia "M1"
    ⟨some "nvidia", some ⟨some "X", some ["V"]⟩⟩ "nvidia"
    (by decide) (by decide) (by decide) (by decide) (by decide) (by decide)

/-- C7 (counterexample): the factory returns `none` for an unrecognized
vendor tag, but the orchestrator step that receives this `none`
(`if validator and not validator.validate()`) contributes zero failures
and records nothing — it does not count the missing validator as a
failure. -/
theorem C7_counterexample :
    get_validator "tenstorrent" = none ∧
    componentValidation "tenstorrent"
      ⟨some "tenstorrent", some ⟨some "X", some ["V"]⟩⟩ envNoTools [] =
      (0, []) :=
  ⟨rfl, rfl⟩

/-- C7 (amended): the factory returns `none` for every unrecognized
vendor tag without raising; the orchestrator ignores a `none` validator
(adding zero failures), but a run whose declared vendor is unrecognized
still cannot end with status PASS, because the vendor-presence gate
records a failure first and the validator step is never reached. -/
theorem C7_unrecognized_vendor :
    ∀ (cm : String) (cfg : Config) (env : Env) (checks : List CheckResult)
      (ms : ModelSpec) (ev : String),
    lookupConfig cfg cm = some ms →
    ms.expected_gpu_vendor = some ev →
    ev ≠ "nvidia" → ev ≠ "amd" → ev ≠ "intel" →
    get_validator ev = none ∧
    (run_validation cm cfg env checks).1 = 1 ∧
    write_report_status (run_validation cm cfg env checks).1 = "FAIL" := by
  intro cm cfg env checks ms ev hms hev hn ha hi
  have hfact : get_validator ev = none := by
    unfold get_validator
    rw [if_neg hn, if_neg ha, if_neg hi]
  have hrun : (run_validation cm cfg env checks).1 = 1 := by
    by_cases h0 : ev = ""
    · simp [run_validation, hms, hev, h0]
    · have htool : toolFound env ≠ some ev := by
        unfold toolFound
        split_ifs
        · intro h
          exact hn (Option.some.inj h).symm
        · intro h
          exact ha (Option.some.inj h).symm
        · intro h
          exact hi (Option.some.inj h).symm
        · intro h
          exact Option.noConfusion h
      simp [run_validation, hms, hev, h0, htool]
  exact ⟨hfact, hrun, by rw [hrun]; rfl⟩

/-- C7 (witness): a config declaring the unrecognized vendor
`tenstorrent` yields a failing run and a `none` validator. -/
theorem C7_unrecognized_vendor_witness :
    get_validator "tenstorrent" = none ∧
    (run_validation "M1" cfgBadVendor envNoTools []).1 = 1 ∧
    write_report_status (run_validation "M1" cfgBadVendor envNoTools []).1 =
      "FAIL" :=
  C7_unrecognized_vendor "M1" cfgBadVendor envNoTools []
    ⟨some "tenstorrent", some ⟨some "X", some ["V"]⟩⟩ "tenstorrent"
    (by decide) (by decide) (by decide) (by decide) (by decide)

/-- C8 (confirmed): two runs against the same host state and the same
config produce reports that agree on every field except `report_id` (the
only field the module-load timestamp enters): same status, same
system_model, and element-for-element equal checks_performed. -/
theorem C8_idempotent :
    ∀ (t1 t2 : String) (env : Env) (config : Option Config),
    (runMain t1 env config).map
      (fun r => (r.status, r.system_model, r.checks_performed)) =
    (runMain t2 env config).map
      (fun r => (r.status, r.system_model, r.checks_performed)) := by
  intro t1 t2 env config
  unfold runMain
  cases runCore env config <;> rfl

/-- C9 (confirmed): when the NVIDIA inventory command succeeds with empty
trimmed stdout, splitting yields the single line `""`, the empty-items
branch is not taken, and exactly one FAIL CheckResult with component
`GPU_0_Model` and actual `Parse Error` is appended while the failure
counter is incremented by 1. -/
theorem C9_empty_stdout :
    ∀ (st : VState) (m : String),
    nvidiaCheckModels (some "") m st =
      { checks := st.checks ++
          [⟨"GPU_0_Model", "FAIL", .str m, "Parse Error", ""⟩],
        failures := st.failures + 1 } := by
  intro st m
  rfl

/-- C10 (confirmed): every core operation is append-only on the report —
it either leaves `checks_performed` unchanged or extends it by appending
at the end (never modifying or removing an existing entry) — and every
failure counter is monotonically non-decreasing. -/
theorem C10_append_only :
    ∀ (st : VState) (items : List String) (cn : String) (e : PyVal)
      (p : String → Option String) (b : Bool) (i : Nat) (line : String)
      (cmdOut : Option String) (m : String) (l : List String) (cnt : Nat)
      (v : Vendor) (spec : GpuSpec) (env : Env)
      (checks : List CheckResult) (ev cm : String) (ms : ModelSpec)
      (cfg : Config),
    AppendOnly st (processItem cn e p b i line st) ∧
    AppendOnly st (validateItemsFrom cn e p b i st items) ∧
    AppendOnly st (validateListOfItems st items cn e p b) ∧
    AppendOnly st (nvidiaCheckModels cmdOut m st) ∧
    AppendOnly st (nvidiaCheckVbios cmdOut l st) ∧
    AppendOnly st (amdCheckModels cmdOut m st).1 ∧
    AppendOnly st (amdCheckVbios cmdOut cnt l st) ∧
    AppendOnly st (intelCheckModels st) ∧
    AppendOnly st (intelCheckVbios st) ∧
    AppendOnly st (runVendorChecks v env m l st) ∧
    (∃ d, (validate v spec env checks).2.checks = checks ++ d) ∧
    (∃ d, (componentValidation ev ms env checks).2 = checks ++ d) ∧
    (∃ d, (run_validation cm cfg env checks).2 = checks ++ d) := by
  intro st items cn e p b i line cmdOut m l cnt v spec env checks ev cm ms cfg
  refine ⟨appendOnly_of_accrues (accrues_processItem cn e p b i line st),
    appendOnly_of_accrues (accrues_validateItemsFrom cn e p b items i st),
    appendOnly_of_accrues (accrues_validateListOfItems st items cn e p b),
    appendOnly_of_accrues (accrues_nvidiaCheckModels cmdOut m st),
    appendOnly_of_accrues (accrues_nvidiaCheckVbios cmdOut l st),
    appendOnly_of_accrues (accrues_amdCheckModels cmdOut m st),
    appendOnly_of_accrues (accrues_amdCheckVbios cmdOut cnt l st),
    appendOnly_of_accrues (accrues_intelCheckModels st),
    ⟨⟨[], by simp [intelCheckVbios]⟩, le_refl _⟩,
    appendOnly_of_accrues (accrues_runVendorChecks v env m l st),
    ?_, ?_, ?_⟩
  · obtain ⟨d, hc, -, -⟩ := validate_spec v spec env checks
    exact ⟨d, hc⟩
  · obtain ⟨d, hc, -⟩ := componentValidation_spec ev ms env checks
    exact ⟨d, hc⟩
  · obtain ⟨d, hc, -⟩ := run_validation_spec cm cfg env checks
    exact ⟨d, hc⟩

end GpuVal
